import Mathlib

/-!
Verification of the computational core of `src/coluna_absorcao.py`
(Arnold diffusion-cell simulator).

The embedding mirrors the Python source:

* `processar_dados` — the data preprocessor (column validation, the
  cm→m unit heuristic, and the `delta_z2 = altura² − z0²` column),
  modelled over exact rationals.  Since pandas assignments mutate the
  caller's dataframe in place, the embedding returns a pair: the state
  of the caller's table after the call, and the value the function
  returns (`Except.error msg` models `st.error(msg); return None`).
* `modelo_diffusao` — the pseudo-steady-state diffusion model, over ℝ.
* `calcular_D_AB_teorico` — the Fuller temperature correction, over ℝ.
* `modelo_diffusao_np` / `erro_comparacao` — the same computations under
  Python/numpy float special-value semantics (`NPVal` adds NaN and ±∞ to
  ℝ): numpy's `log`/`sqrt` of out-of-domain arguments and division of a
  `np.float64` by zero produce NaN/∞ silently, while Python scalar float
  division by zero raises `ZeroDivisionError`.
-/

namespace ColunaAbsorcao

/-- Shallow model of the pandas dataframe consumed by `processar_dados`:
the three columns the program ever touches, each present or absent. -/
structure DataFrame where
  tempo : Option (List ℚ)
  altura : Option (List ℚ)
  delta_z2 : Option (List ℚ)
deriving DecidableEq

/-- Maximum of a list of rationals, `none` on the empty list
(pandas `Series.max()` gives NaN there). -/
def maxQ : List ℚ → Option ℚ
  | [] => none
  | a :: tl =>
    match maxQ tl with
    | none => some a
    | some m => some (max a m)

/-- The branch condition `df['altura'].max() < 1` of the source.  On an
empty column pandas yields NaN and `NaN < 1` is `False`. -/
def maxLtOne (l : List ℚ) : Bool :=
  match maxQ l with
  | none => false
  | some m => decide (m < 1)

/-- Embedding of `processar_dados(df)` (src lines 117–138).  First
component: the caller's dataframe after the call (pandas column
assignments mutate it in place).  Second component: the returned value;
`Except.error msg` models `st.error(msg); return None`.  The `iloc[0]`
on an empty column raises `IndexError`, caught by the blanket
`except` clause. -/
def processar_dados (df : DataFrame) : DataFrame × Except String DataFrame :=
  match df.tempo, df.altura with
  | some _, some altura =>
    let altura1 := if maxLtOne altura then altura else altura.map (fun h => h / 100)
    let df1 : DataFrame := ⟨df.tempo, some altura1, df.delta_z2⟩
    match altura1.head? with
    | none => (df1, Except.error "Erro ao processar dados: IndexError")
    | some z0 =>
      let df2 : DataFrame := ⟨df1.tempo, df1.altura, some (altura1.map (fun h => h ^ 2 - z0 ^ 2))⟩
      (df2, Except.ok df2)
  | _, _ => (df, Except.error "O arquivo CSV deve conter colunas tempo (s) e altura (m)")

noncomputable section

/-- Embedding of `modelo_diffusao(t, D_AB)` (src lines 104–112) over the
reals; the globals `M_A`, `rho_A`, `P`, `T` set in the sidebar are
explicit parameters. -/
def modelo_diffusao (M_A rho_A P T t D_AB : ℝ) : ℝ :=
  let R : ℝ := 8.314
  let P_A1 : ℝ := 0.66782e5
  let P_A2 : ℝ := 0
  let P_total : ℝ := P * 101325
  let termo := (2 * M_A * D_AB * P_total) / (rho_A * R * T)
  let log_term := Real.log ((P_total - P_A2) / (P_total - P_A1))
  Real.sqrt (termo * log_term * t)

/-- Embedding of `calcular_D_AB_teorico(T, D_AB_ref, T_ref=273.0)`
(src lines 98–99); the default argument is passed explicitly. -/
def calcular_D_AB_teorico (T D_AB_ref T_ref : ℝ) : ℝ :=
  D_AB_ref * (T / T_ref) ^ (1.75 : ℝ)

/-- Constant extracted from `modelo_diffusao` for proofs: the model is
`sqrt (modelK * (D * t))`. -/
def modelK (M_A rho_A P T : ℝ) : ℝ :=
  (2 * M_A * (P * 101325)) / (rho_A * 8.314 * T) *
    Real.log ((P * 101325 - 0) / (P * 101325 - 0.66782e5))

/-- Python/numpy float value: a finite real, NaN, or a signed infinity. -/
inductive NPVal where
  | fin : ℝ → NPVal
  | nan : NPVal
  | posinf : NPVal
  | neginf : NPVal

/-- Semantics of `np.log` on a real scalar: NaN for negative arguments,
`-inf` at zero, otherwise the real logarithm.  numpy emits a warning but
raises no exception. -/
def nplog (x : ℝ) : NPVal :=
  if x < 0 then NPVal.nan else if x = 0 then NPVal.neginf else NPVal.fin (Real.log x)

/-- Semantics of `np.sqrt`: NaN for negative (or NaN) arguments, no
exception raised. -/
def npsqrt (v : NPVal) : NPVal :=
  match v with
  | NPVal.fin a => if a < 0 then NPVal.nan else NPVal.fin (Real.sqrt a)
  | NPVal.nan => NPVal.nan
  | NPVal.posinf => NPVal.posinf
  | NPVal.neginf => NPVal.nan

/-- IEEE multiplication of a float value by a finite real. -/
def npmulF (v : NPVal) (b : ℝ) : NPVal :=
  match v with
  | NPVal.fin a => NPVal.fin (a * b)
  | NPVal.nan => NPVal.nan
  | NPVal.posinf => if 0 < b then NPVal.posinf else if b < 0 then NPVal.neginf else NPVal.nan
  | NPVal.neginf => if 0 < b then NPVal.neginf else if b < 0 then NPVal.posinf else NPVal.nan

/-- IEEE division of a finite `np.float64` by a finite float: division by
(positive) zero yields a signed infinity, `0/0` yields NaN; no exception
is raised (numpy emits a warning only). -/
def npdivF (x y : ℝ) : NPVal :=
  if y = 0 then
    (if x = 0 then NPVal.nan else if 0 < x then NPVal.posinf else NPVal.neginf)
  else NPVal.fin (x / y)

/-- Python scalar float division: raises `ZeroDivisionError` on a zero
divisor, otherwise exact. -/
def pydiv (x y : ℝ) : Except String ℝ :=
  if y = 0 then Except.error "ZeroDivisionError: float division by zero"
  else Except.ok (x / y)

/-- Embedding of `modelo_diffusao` under Python/numpy float semantics
(src lines 104–112): the two scalar divisions are Python float division
(which raises on a zero divisor), while `np.log` and `np.sqrt` silently
produce NaN outside their domains. -/
def modelo_diffusao_np (M_A rho_A P T t D_AB : ℝ) : Except String NPVal :=
  let P_total := P * 101325
  match pydiv (2 * M_A * D_AB * P_total) (rho_A * 8.314 * T) with
  | Except.error e => Except.error e
  | Except.ok termo =>
    match pydiv (P_total - 0) (P_total - 0.66782e5) with
    | Except.error e => Except.error e
    | Except.ok razao =>
      Except.ok (npsqrt (npmulF (npmulF (nplog razao) termo) t))

/-- Embedding of the comparison step (src lines 246–247).
`erro_absoluto = abs(D_AB_teorico_ajustado - D_AB_exp)` where `D_AB_exp`
is a `np.float64` (from `curve_fit`), so `erro_absoluto` is a
`np.float64` and the division `erro_absoluto / D_AB_teorico_ajustado`
follows IEEE semantics (no exception on a zero divisor). -/
def erro_comparacao (D_AB_teorico_ajustado D_AB_exp : ℝ) : ℝ × NPVal :=
  let erro_absoluto := |D_AB_teorico_ajustado - D_AB_exp|
  (erro_absoluto, npmulF (npdivF erro_absoluto D_AB_teorico_ajustado) 100)

/-- Sum of squared residuals Σ (observed − model(time, D))² minimized by
the curve-fit step (src lines 190–195). -/
def sse (M_A rho_A P T : ℝ) (data : List (ℝ × ℝ)) (D : ℝ) : ℝ :=
  (data.map (fun p => (p.2 - modelo_diffusao M_A rho_A P T p.1 D) ^ 2)).sum

/-- Modelled from the spec: the curve-fit engine itself is
`scipy.optimize.curve_fit`, external to the repository; the spec
describes it as "nonlinear least squares minimizing
Σ(observed_height_i − model(time_i, D))² over scalar D".  A successful
fit result is therefore modelled as a global minimizer of that
objective (the iterative optimizer and its starting guess `p0 = 1e-5`
are abstracted away). -/
def IsFitMinimizer (M_A rho_A P T : ℝ) (data : List (ℝ × ℝ)) (D : ℝ) : Prop :=
  ∀ Dother : ℝ, sse M_A rho_A P T data D ≤ sse M_A rho_A P T data Dother

end

/-! Helper lemmas. -/

lemma modelo_eq_K (M_A rho_A P T t D : ℝ) :
    modelo_diffusao M_A rho_A P T t D = Real.sqrt (modelK M_A rho_A P T * (D * t)) := by
  simp only [modelo_diffusao, modelK]
  congr 1
  ring

lemma modelK_pos (M_A rho_A P T : ℝ) (hM : 0 < M_A) (hrho : 0 < rho_A) (hT : 0 < T)
    (hP : 0.66782e5 < P * 101325) : 0 < modelK M_A rho_A P T := by
  have hPt : (0 : ℝ) < P * 101325 := lt_trans (by norm_num) hP
  have hden : (0 : ℝ) < P * 101325 - 0.66782e5 := by linarith
  have hlog : 0 < Real.log ((P * 101325 - 0) / (P * 101325 - 0.66782e5)) := by
    apply Real.log_pos
    rw [one_lt_div hden]
    have : (0 : ℝ) < 0.66782e5 := by norm_num
    linarith
  apply mul_pos _ hlog
  apply div_pos
  · positivity
  · positivity

lemma sse_nonneg (M_A rho_A P T : ℝ) (data : List (ℝ × ℝ)) (D : ℝ) :
    0 ≤ sse M_A rho_A P T data D := by
  apply List.sum_nonneg
  intro x hx
  obtain ⟨p, _, rfl⟩ := List.mem_map.mp hx
  exact sq_nonneg _

lemma sse_gen_self (M_A rho_A P T D : ℝ) (times : List ℝ) :
    sse M_A rho_A P T (times.map (fun t => (t, modelo_diffusao M_A rho_A P T t D))) D = 0 := by
  apply List.sum_eq_zero
  intro x hx
  rw [List.map_map] at hx
  obtain ⟨t, _, rfl⟩ := List.mem_map.mp hx
  simp [Function.comp]

lemma list_sum_sq_zero {l : List ℝ} (hnn : ∀ x ∈ l, 0 ≤ x) (hsum : l.sum = 0) :
    ∀ x ∈ l, x = 0 := by
  induction l with
  | nil => simp
  | cons a t ih =>
    simp only [List.sum_cons] at hsum
    have ha : 0 ≤ a := hnn a (List.mem_cons_self a t)
    have ht : 0 ≤ t.sum := List.sum_nonneg (fun x hx => hnn x (List.mem_cons_of_mem a hx))
    have ha0 : a = 0 := le_antisymm (by linarith) ha
    have hts : t.sum = 0 := by linarith
    intro x hx
    rcases List.mem_cons.mp hx with rfl | hx'
    · exact ha0
    · exact ih (fun y hy => hnn y (List.mem_cons_of_mem a hy)) hts x hx'

lemma maxQ_cons_eq (a : ℚ) (tl : List ℚ) :
    ∃ m, maxQ (a :: tl) = some m ∧ (m < 1 ↔ ∀ h ∈ a :: tl, h < 1) := by
  induction tl generalizing a with
  | nil => exact ⟨a, rfl, by simp⟩
  | cons b tb ih =>
    obtain ⟨m, hm, hiff⟩ := ih b
    refine ⟨max a m, ?_, ?_⟩
    · show (match maxQ (b :: tb) with
            | none => some a
            | some m => some (max a m)) = some (max a m)
      rw [hm]
    · rw [max_lt_iff]
      constructor
      · rintro ⟨h1, h2⟩ h hh
        rcases List.mem_cons.mp hh with rfl | hh'
        · exact h1
        · exact (hiff.mp h2) h hh'
      · intro hall
        exact ⟨hall a (List.mem_cons_self a _),
          hiff.mpr (fun h hh => hall h (List.mem_cons_of_mem a hh))⟩

lemma maxLtOne_cons_iff (a : ℚ) (tl : List ℚ) :
    maxLtOne (a :: tl) = true ↔ ∀ h ∈ a :: tl, h < 1 := by
  obtain ⟨m, hm, hiff⟩ := maxQ_cons_eq a tl
  simp [maxLtOne, hm, hiff]

lemma map_div100_ne (l : List ℚ) (h0 : ℚ) (hmem : h0 ∈ l) (h1 : 1 ≤ h0) :
    l.map (fun h => h / 100) ≠ l := by
  induction l with
  | nil => cases hmem
  | cons a t ih =>
    intro heq
    simp only [List.map_cons, List.cons.injEq] at heq
    rcases List.mem_cons.mp hmem with rfl | hmem'
    · have : h0 = 0 := by linarith [heq.1]
      linarith
    · exact ih hmem' heq.2

lemma processar_dados_success (df : DataFrame) (ts : List ℚ) (a : ℚ) (tl : List ℚ)
    (htc : df.tempo = some ts) (hhc : df.altura = some (a :: tl)) :
    ∃ hsn z0,
      hsn = (if maxLtOne (a :: tl) then a :: tl else (a :: tl).map (fun h => h / 100)) ∧
      hsn.head? = some z0 ∧
      (processar_dados df).1 = ⟨some ts, some hsn, some (hsn.map (fun h => h ^ 2 - z0 ^ 2))⟩ ∧
      (processar_dados df).2 =
        Except.ok (⟨some ts, some hsn, some (hsn.map (fun h => h ^ 2 - z0 ^ 2))⟩ : DataFrame) := by
  obtain ⟨dto, dao, ddz⟩ := df
  simp only at htc hhc
  subst htc
  subst hhc
  by_cases hmx : maxLtOne (a :: tl) = true
  · refine ⟨a :: tl, a, ?_, rfl, ?_, ?_⟩
    · rw [if_pos hmx]
    · simp only [processar_dados, hmx, if_true, List.head?]
    · simp only [processar_dados, hmx, if_true, List.head?]
  · rw [Bool.not_eq_true] at hmx
    refine ⟨(a :: tl).map (fun h => h / 100), a / 100, ?_, rfl, ?_, ?_⟩
    · rw [if_neg (by simp [hmx])]
    · simp only [processar_dados, hmx, Bool.false_eq_true, if_false, List.map_cons, List.head?]
    · simp only [processar_dados, hmx, Bool.false_eq_true, if_false, List.map_cons, List.head?]

lemma maxLtOne_false_of_ge (a : ℚ) (tl : List ℚ) (h0 : ℚ) (hmem : h0 ∈ a :: tl)
    (h1 : 1 ≤ h0) : maxLtOne (a :: tl) = false := by
  rw [Bool.eq_false_iff]
  intro htrue
  exact absurd ((maxLtOne_cons_iff a tl).mp htrue h0 hmem) (not_lt.mpr h1)

lemma modelo_np_nan (M_A rho_A P T t D : ℝ) (hden : rho_A * 8.314 * T ≠ 0)
    (hP0 : 0 < P * 101325) (hP1 : P * 101325 < 0.66782e5) :
    modelo_diffusao_np M_A rho_A P T t D = Except.ok NPVal.nan := by
  have hd2 : P * 101325 - 0.66782e5 ≠ 0 := by
    intro h
    rw [sub_eq_zero] at h
    rw [h] at hP1
    exact lt_irrefl _ hP1
  have hratio : (P * 101325 - 0) / (P * 101325 - 0.66782e5) < 0 := by
    apply div_neg_of_pos_of_neg
    · rw [sub_zero]
      exact hP0
    · linarith
  simp only [modelo_diffusao_np, pydiv, if_neg hden, if_neg hd2, nplog, if_pos hratio,
    npmulF, npsqrt]

/-! Claim theorems. -/

/-- Claim C6: for every reference diffusivity `D_ref`, the temperature
correction computes `D_adjusted = D_ref * (T / T_ref)^1.75` (with the
source's default reference temperature `T_ref = 273.0` K passed
explicitly); in particular `calcular_D_AB_teorico 273 D_ref 273 = D_ref`,
the identity at the reference temperature. -/
theorem C6_temperature_correction :
    (∀ T D_ref T_ref : ℝ,
      calcular_D_AB_teorico T D_ref T_ref = D_ref * (T / T_ref) ^ (1.75 : ℝ)) ∧
    (∀ D_ref : ℝ, calcular_D_AB_teorico 273 D_ref 273 = D_ref) := by
  constructor
  · intro T D_ref T_ref
    rfl
  · intro D_ref
    unfold calcular_D_AB_teorico
    rw [div_self (by norm_num : (273 : ℝ) ≠ 0), Real.one_rpow, mul_one]

/-- Claim C9: for every valid diffusivity `D > 0` and valid physical
parameters, the predicted height at time `t = 0` is exactly `0`. -/
theorem C9_zero_time (M_A rho_A P T D : ℝ) (hM : 0 < M_A) (hrho : 0 < rho_A)
    (hT : 0 < T) (hP : 0.66782e5 < P * 101325) (hD : 0 < D) :
    modelo_diffusao M_A rho_A P T 0 D = 0 := by
  simp [modelo_diffusao, mul_zero, Real.sqrt_zero]

/-- Witness for C9 at the Acetona-Ar parameters of the source
(M_A = 58.08, rho_A = 791, P = 1 atm, T = 318 K) and D = 1e-5. -/
theorem C9_zero_time_witness :
    (0 : ℝ) < 58.08 ∧ (0 : ℝ) < 791 ∧ (0 : ℝ) < 318 ∧
    (0.66782e5 : ℝ) < 1 * 101325 ∧ (0 : ℝ) < 1e-5 ∧
    modelo_diffusao 58.08 791 1 318 0 1e-5 = 0 :=
  ⟨by norm_num, by norm_num, by norm_num, by norm_num, by norm_num,
    C9_zero_time 58.08 791 1 318 1e-5 (by norm_num) (by norm_num) (by norm_num)
      (by norm_num) (by norm_num)⟩

/-- Claim C4: given fixed valid physical parameters, for all `D > 0` and
`t ≥ 0` the predicted height is non-negative, monotonically
non-decreasing in `t` with `D` fixed, and monotonically non-decreasing
in `D` with `t` fixed. -/
theorem C4_model_monotone (M_A rho_A P T : ℝ) (hM : 0 < M_A) (hrho : 0 < rho_A)
    (hT : 0 < T) (hP : 0.66782e5 < P * 101325) :
    (∀ t D : ℝ, 0 ≤ t → 0 < D → 0 ≤ modelo_diffusao M_A rho_A P T t D) ∧
    (∀ t1 t2 D : ℝ, 0 ≤ t1 → t1 ≤ t2 → 0 < D →
      modelo_diffusao M_A rho_A P T t1 D ≤ modelo_diffusao M_A rho_A P T t2 D) ∧
    (∀ t D1 D2 : ℝ, 0 ≤ t → 0 < D1 → D1 ≤ D2 →
      modelo_diffusao M_A rho_A P T t D1 ≤ modelo_diffusao M_A rho_A P T t D2) := by
  have hK : 0 < modelK M_A rho_A P T := modelK_pos M_A rho_A P T hM hrho hT hP
  refine ⟨?_, ?_, ?_⟩
  · intro t D _ _
    rw [modelo_eq_K]
    exact Real.sqrt_nonneg _
  · intro t1 t2 D _ ht12 hD
    rw [modelo_eq_K, modelo_eq_K]
    apply Real.sqrt_le_sqrt
    apply mul_le_mul_of_nonneg_left _ hK.le
    exact mul_le_mul_of_nonneg_left ht12 hD.le
  · intro t D1 D2 ht hD1 hD12
    rw [modelo_eq_K, modelo_eq_K]
    apply Real.sqrt_le_sqrt
    apply mul_le_mul_of_nonneg_left _ hK.le
    exact mul_le_mul_of_nonneg_right hD12 ht

/-- Witness for C4 at the Acetona-Ar parameters: non-negativity at
(t, D) = (60, 1e-5), monotonicity in t from 0 to 60, monotonicity in D
from 1e-5 to 2e-5. -/
theorem C4_model_monotone_witness :
    (0 : ℝ) < 58.08 ∧ (0 : ℝ) < 791 ∧ (0 : ℝ) < 318 ∧
    (0.66782e5 : ℝ) < 1 * 101325 ∧
    (0 ≤ modelo_diffusao 58.08 791 1 318 60 1e-5 ∧
      modelo_diffusao 58.08 791 1 318 0 1e-5 ≤ modelo_diffusao 58.08 791 1 318 60 1e-5 ∧
      modelo_diffusao 58.08 791 1 318 60 1e-5 ≤ modelo_diffusao 58.08 791 1 318 60 2e-5) := by
  have h := C4_model_monotone 58.08 791 1 318 (by norm_num) (by norm_num)
    (by norm_num) (by norm_num)
  refine ⟨by norm_num, by norm_num, by norm_num, by norm_num, ?_, ?_, ?_⟩
  · exact h.1 60 1e-5 (by norm_num) (by norm_num)
  · exact h.2.1 0 60 1e-5 (by norm_num) (by norm_num) (by norm_num)
  · exact h.2.2 60 1e-5 2e-5 (by norm_num) (by norm_num) (by norm_num)

/-- Claim C1: fitting a series generated by evaluating the model at a
known `Dstar > 0` with zero noise, at two or more distinct time points,
recovers `Dstar` within relative error `< 1e-4` (in fact exactly): any
least-squares minimizer of the curve-fit objective on that series equals
`Dstar`. -/
theorem C1_fit_roundtrip (M_A rho_A P T Dstar Dfit : ℝ) (times : List ℝ)
    (hM : 0 < M_A) (hrho : 0 < rho_A) (hT : 0 < T) (hP : 0.66782e5 < P * 101325)
    (hDstar : 0 < Dstar)
    (htnn : ∀ t ∈ times, 0 ≤ t)
    (hdist : ∃ t1 ∈ times, ∃ t2 ∈ times, t1 ≠ t2)
    (hfit : IsFitMinimizer M_A rho_A P T
      (times.map (fun t => (t, modelo_diffusao M_A rho_A P T t Dstar))) Dfit) :
    Dfit = Dstar ∧ |Dfit - Dstar| / Dstar < 1e-4 := by
  have hK : 0 < modelK M_A rho_A P T := modelK_pos M_A rho_A P T hM hrho hT hP
  obtain ⟨t1, ht1, t2, ht2, hne⟩ := hdist
  have hpos : ∃ t ∈ times, 0 < t := by
    rcases lt_or_gt_of_ne hne with h | h
    · exact ⟨t2, ht2, lt_of_le_of_lt (htnn t1 ht1) h⟩
    · exact ⟨t1, ht1, lt_of_le_of_lt (htnn t2 ht2) h⟩
  obtain ⟨t, htmem, htpos⟩ := hpos
  have hgen : sse M_A rho_A P T
      (times.map (fun s => (s, modelo_diffusao M_A rho_A P T s Dstar))) Dstar = 0 :=
    sse_gen_self M_A rho_A P T Dstar times
  have h0 : sse M_A rho_A P T
      (times.map (fun s => (s, modelo_diffusao M_A rho_A P T s Dstar))) Dfit = 0 := by
    have hle := hfit Dstar
    rw [hgen] at hle
    exact le_antisymm hle (sse_nonneg M_A rho_A P T _ Dfit)
  have hterm : (modelo_diffusao M_A rho_A P T t Dstar -
      modelo_diffusao M_A rho_A P T t Dfit) ^ 2 = 0 := by
    have hmem : (modelo_diffusao M_A rho_A P T t Dstar -
        modelo_diffusao M_A rho_A P T t Dfit) ^ 2 ∈
        ((times.map (fun s => (s, modelo_diffusao M_A rho_A P T s Dstar))).map
          (fun p => (p.2 - modelo_diffusao M_A rho_A P T p.1 Dfit) ^ 2)) := by
      rw [List.map_map]
      exact List.mem_map_of_mem _ htmem
    refine list_sum_sq_zero (fun x hx => ?_) h0 _ hmem
    obtain ⟨p, _, rfl⟩ := List.mem_map.mp hx
    exact sq_nonneg _
  have heq : modelo_diffusao M_A rho_A P T t Dstar = modelo_diffusao M_A rho_A P T t Dfit :=
    sub_eq_zero.mp (sq_eq_zero_iff.mp hterm)
  rw [modelo_eq_K, modelo_eq_K] at heq
  have hargpos : 0 < modelK M_A rho_A P T * (Dstar * t) :=
    mul_pos hK (mul_pos hDstar htpos)
  have hsq2 : 0 < Real.sqrt (modelK M_A rho_A P T * (Dstar * t)) := Real.sqrt_pos.mpr hargpos
  have hsq1 : 0 < Real.sqrt (modelK M_A rho_A P T * (Dfit * t)) := heq ▸ hsq2
  have hfitpos : 0 < modelK M_A rho_A P T * (Dfit * t) := Real.sqrt_pos.mp hsq1
  have hargs : modelK M_A rho_A P T * (Dfit * t) = modelK M_A rho_A P T * (Dstar * t) := by
    calc modelK M_A rho_A P T * (Dfit * t)
        = Real.sqrt (modelK M_A rho_A P T * (Dfit * t)) ^ 2 := (Real.sq_sqrt hfitpos.le).symm
      _ = Real.sqrt (modelK M_A rho_A P T * (Dstar * t)) ^ 2 := by rw [heq]
      _ = modelK M_A rho_A P T * (Dstar * t) := Real.sq_sqrt hargpos.le
  have hDt : Dfit * t = Dstar * t := mul_left_cancel₀ (ne_of_gt hK) hargs
  have hDD : Dfit = Dstar := mul_right_cancel₀ (ne_of_gt htpos) hDt
  refine ⟨hDD, ?_⟩
  rw [hDD, sub_self, abs_zero, zero_div]
  norm_num

/-- Witness for C1: the Acetona-Ar parameters, times `[0, 60]`,
`Dstar = 2e-5`, and `Dfit = 2e-5`, which is a least-squares minimizer
of the zero-noise objective. -/
theorem C1_fit_roundtrip_witness :
    (∃ t1 ∈ ([0, 60] : List ℝ), ∃ t2 ∈ ([0, 60] : List ℝ), t1 ≠ t2) ∧
    ((2e-5 : ℝ) = 2e-5 ∧ |(2e-5 : ℝ) - 2e-5| / 2e-5 < 1e-4) := by
  constructor
  · exact ⟨0, by simp, 60, by simp, by norm_num⟩
  · refine C1_fit_roundtrip 58.08 791 1 318 2e-5 2e-5 [0, 60] (by norm_num) (by norm_num)
      (by norm_num) (by norm_num) (by norm_num) ?_ ?_ ?_
    · intro s hs
      rcases List.mem_cons.mp hs with rfl | hs'
      · norm_num
      · simp at hs'
        rw [hs']
        norm_num
    · exact ⟨0, by simp, 60, by simp, by norm_num⟩
    · intro Dother
      rw [sse_gen_self]
      exact sse_nonneg 58.08 791 1 318 _ Dother

/-- Claim C2, counterexample: at Acetona-Ar parameters with
`P = 0.5` atm (so `P_total - P_A1 = 50662.5 - 66782 ≤ 0`), `t = 60 ≥ 0`
and `D = 1e-5 > 0`, the evaluation does NOT raise any error: it returns
the value NaN (`Except.ok`, not `Except.error`), contradicting the
claim that a DomainError is raised and reported to the caller. -/
theorem C2_counterexample :
    ((0.5 : ℝ) * 101325 - 0.66782e5 ≤ 0) ∧
    modelo_diffusao_np 58.08 791 0.5 318 60 1e-5 = Except.ok NPVal.nan :=
  ⟨by norm_num,
    modelo_np_nan 58.08 791 0.5 318 60 1e-5 (by norm_num) (by norm_num) (by norm_num)⟩

/-- Claim C2 (amended): for every `t ≥ 0` and `D > 0`, when
`P_total - vapor_pressure_1 < 0` (with `P_total > 0` and a nonzero
`rho_A * R * T` denominator), evaluating the model raises no error:
it returns the non-finite value NaN. No finite height value is
produced, but nothing is raised or reported; the NaN only surfaces
later when the curve-fit step consumes it. -/
theorem C2_nan_not_raised (M_A rho_A P T t D : ℝ) (ht : 0 ≤ t) (hD : 0 < D)
    (hden : rho_A * 8.314 * T ≠ 0) (hP0 : 0 < P * 101325)
    (hP1 : P * 101325 < 0.66782e5) :
    modelo_diffusao_np M_A rho_A P T t D = Except.ok NPVal.nan :=
  modelo_np_nan M_A rho_A P T t D hden hP0 hP1

/-- Witness for C2 (amended) at water-air parameters with `P = 0.3` atm. -/
theorem C2_nan_not_raised_witness :
    ((0 : ℝ) ≤ 10) ∧ ((0 : ℝ) < 2e-6) ∧ ((997 : ℝ) * 8.314 * 300 ≠ 0) ∧
    ((0 : ℝ) < 0.3 * 101325) ∧ ((0.3 : ℝ) * 101325 < 0.66782e5) ∧
    modelo_diffusao_np 18.02 997 0.3 300 10 2e-6 = Except.ok NPVal.nan :=
  ⟨by norm_num, by norm_num, by norm_num, by norm_num, by norm_num,
    C2_nan_not_raised 18.02 997 0.3 300 10 2e-6 (by norm_num) (by norm_num)
      (by norm_num) (by norm_num) (by norm_num)⟩

/-- Claim C5, counterexample: with `D_teorico_ajustado = 0` and
`D_exp = 1e-5`, the comparison step raises nothing and produces a
result: `absolute_error = 1e-5` and `relative_error = +inf` (numpy
float division by zero), contradicting the claim that a DomainError
occurs and no comparison result is produced. -/
theorem C5_counterexample : erro_comparacao 0 1e-5 = (1e-5, NPVal.posinf) := by
  unfold erro_comparacao
  have habs : |(0 : ℝ) - 1e-5| = 1e-5 := by
    rw [zero_sub, abs_neg, abs_of_pos (by norm_num : (0 : ℝ) < 1e-5)]
  rw [habs]
  unfold npdivF npmulF
  norm_num

/-- Claim C5 (amended): the comparison step always produces a result and
never raises: `absolute_error = |D_adjusted − D_experimental|` always;
when `D_adjusted ≠ 0`, `relative_error_percent` is the finite value
`absolute_error / D_adjusted * 100`; when `D_adjusted = 0` (and the
absolute error is nonzero) the relative error is `+inf` rather than an
error. -/
theorem C5_compare_errors (D_adj D_exp : ℝ) :
    (erro_comparacao D_adj D_exp).1 = |D_adj - D_exp| ∧
    (D_adj ≠ 0 →
      (erro_comparacao D_adj D_exp).2 = NPVal.fin (|D_adj - D_exp| / D_adj * 100)) ∧
    (D_adj = 0 → D_exp ≠ 0 → (erro_comparacao D_adj D_exp).2 = NPVal.posinf) := by
  refine ⟨rfl, ?_, ?_⟩
  · intro h
    simp only [erro_comparacao, npdivF, if_neg h, npmulF]
  · intro h0 hx
    subst h0
    have habs : |(0 : ℝ) - D_exp| ≠ 0 := by
      rw [zero_sub, abs_neg]
      simpa using hx
    have hpos : 0 < |(0 : ℝ) - D_exp| := lt_of_le_of_ne (abs_nonneg _) (Ne.symm habs)
    simp only [erro_comparacao, npdivF, if_pos rfl, if_neg habs, if_pos hpos, npmulF]
    norm_num

/-- Witness for C5 (amended) at `D_adj = 2`, `D_exp = 1`. -/
theorem C5_compare_errors_witness :
    ((2 : ℝ) ≠ 0) ∧
    (erro_comparacao 2 1).2 = NPVal.fin (|(2 : ℝ) - 1| / 2 * 100) :=
  ⟨by norm_num, (C5_compare_errors 2 1).2.1 (by norm_num)⟩

/-- Claim C3: for every uploaded height series (both columns present,
series non-empty), the unit heuristic is exactly: if every height is
below 1 (equivalently `altura.max() < 1`) the heights pass through
unchanged, otherwise every height is divided by 100; no other
transformation of the height values is performed. -/
theorem C3_unit_heuristic (df : DataFrame) (ts hs : List ℚ)
    (htc : df.tempo = some ts) (hhc : df.altura = some hs) (hne : hs ≠ []) :
    ∃ dfr, (processar_dados df).2 = Except.ok dfr ∧
      ((∀ h ∈ hs, h < 1) → dfr.altura = some hs) ∧
      ((∃ h ∈ hs, 1 ≤ h) → dfr.altura = some (hs.map (fun h => h / 100))) := by
  obtain ⟨a, tl, rfl⟩ := List.exists_cons_of_ne_nil hne
  obtain ⟨hsn, z0, hhsn, hz0, hpost, hok⟩ := processar_dados_success df ts a tl htc hhc
  refine ⟨_, hok, ?_, ?_⟩
  · intro hall
    have hmx : maxLtOne (a :: tl) = true := (maxLtOne_cons_iff a tl).mpr hall
    show some hsn = some (a :: tl)
    rw [hhsn, if_pos hmx]
  · rintro ⟨h0, hmem, h1⟩
    have hmx : maxLtOne (a :: tl) = false := maxLtOne_false_of_ge a tl h0 hmem h1
    show some hsn = some ((a :: tl).map (fun h => h / 100))
    rw [hhsn, hmx]
    simp

/-- Witness for C3: table with columns `tempo = [0, 60]` and
`altura = [2, 3]` (centimetre-range values, so the division branch
fires). -/
theorem C3_unit_heuristic_witness :
    ((⟨some [0, 60], some [2, 3], none⟩ : DataFrame).altura = some [2, 3]) ∧
    (([2, 3] : List ℚ) ≠ []) ∧
    (∃ dfr, (processar_dados ⟨some [0, 60], some [2, 3], none⟩).2 = Except.ok dfr ∧
      ((∀ h ∈ ([2, 3] : List ℚ), h < 1) → dfr.altura = some [2, 3]) ∧
      ((∃ h ∈ ([2, 3] : List ℚ), 1 ≤ h) →
        dfr.altura = some (([2, 3] : List ℚ).map (fun h => h / 100)))) :=
  ⟨rfl, by simp, C3_unit_heuristic _ [0, 60] [2, 3] rfl rfl (by simp)⟩

/-- Claim C7: for every validated non-empty series, the derived column
satisfies `delta_z2[i] = altura[i]² − altura[0]²` (baseline `z0` is the
first row of the processed height column), and in particular its first
entry is `0`. -/
theorem C7_delta_z2 (df : DataFrame) (ts hs : List ℚ)
    (htc : df.tempo = some ts) (hhc : df.altura = some hs) (hne : hs ≠ []) :
    ∃ dfr hsn z0, (processar_dados df).2 = Except.ok dfr ∧
      dfr.altura = some hsn ∧ hsn.head? = some z0 ∧
      dfr.delta_z2 = some (hsn.map (fun h => h ^ 2 - z0 ^ 2)) ∧
      (hsn.map (fun h => h ^ 2 - z0 ^ 2)).head? = some 0 := by
  obtain ⟨a, tl, rfl⟩ := List.exists_cons_of_ne_nil hne
  obtain ⟨hsn, z0, hhsn, hz0, hpost, hok⟩ := processar_dados_success df ts a tl htc hhc
  refine ⟨_, hsn, z0, hok, rfl, hz0, rfl, ?_⟩
  rw [List.head?_map, hz0]
  simp

/-- Witness for C7: table with `tempo = [0, 60]`,
`altura = [1/20, 1/10]` (metre-range values). -/
theorem C7_delta_z2_witness :
    ((⟨some [0, 60], some [1/20, 1/10], none⟩ : DataFrame).tempo = some [0, 60]) ∧
    (([1/20, 1/10] : List ℚ) ≠ []) ∧
    (∃ dfr hsn z0,
      (processar_dados ⟨some [0, 60], some [1/20, 1/10], none⟩).2 = Except.ok dfr ∧
      dfr.altura = some hsn ∧ hsn.head? = some z0 ∧
      dfr.delta_z2 = some (hsn.map (fun h => h ^ 2 - z0 ^ 2)) ∧
      (hsn.map (fun h => h ^ 2 - z0 ^ 2)).head? = some 0) :=
  ⟨rfl, by simp, C7_delta_z2 _ [0, 60] [1/20, 1/10] rfl rfl (by simp)⟩

/-- Claim C8: for every input table missing the `tempo` column or the
`altura` column, the preprocessor fails with the descriptive validation
message, the caller's table is left untouched (no unit conversion or
baseline subtraction attempted), and no experiment series is produced. -/
theorem C8_missing_columns (df : DataFrame) (h : df.tempo = none ∨ df.altura = none) :
    (processar_dados df).1 = df ∧
    (processar_dados df).2 =
      Except.error "O arquivo CSV deve conter colunas tempo (s) e altura (m)" ∧
    ∀ dfr, (processar_dados df).2 ≠ Except.ok dfr := by
  obtain ⟨dto, dao, ddz⟩ := df
  simp only at h
  have hred : processar_dados ⟨dto, dao, ddz⟩ =
      (⟨dto, dao, ddz⟩,
        Except.error "O arquivo CSV deve conter colunas tempo (s) e altura (m)") := by
    rcases h with h | h
    · subst h
      cases dao <;> rfl
    · subst h
      cases dto <;> rfl
  rw [hred]
  refine ⟨rfl, rfl, ?_⟩
  intro dfr
  simp

/-- Witness for C8: a table having only a `tempo` column. -/
theorem C8_missing_columns_witness :
    ((⟨some [0], none, none⟩ : DataFrame).altura = none) ∧
    (processar_dados ⟨some [0], none, none⟩).1 = ⟨some [0], none, none⟩ ∧
    (processar_dados ⟨some [0], none, none⟩).2 =
      Except.error "O arquivo CSV deve conter colunas tempo (s) e altura (m)" ∧
    ∀ dfr, (processar_dados ⟨some [0], none, none⟩).2 ≠ Except.ok dfr := by
  have h := C8_missing_columns ⟨some [0], none, none⟩ (Or.inr rfl)
  exact ⟨rfl, h.1, h.2.1, h.2.2⟩

/-- Claim C10: the preprocessor mutates the caller's table in place
rather than producing a fresh canonical table: the value returned on
success is exactly the caller's post-call table (same object), which has
gained the `delta_z2` column; and when the unit heuristic fires the
caller's height column has been overwritten with the values divided by
100, so the raw uploaded table is not preserved. -/
theorem C10_in_place_mutation (df : DataFrame) (ts hs : List ℚ)
    (htc : df.tempo = some ts) (hhc : df.altura = some hs) (hne : hs ≠ []) :
    (∀ dfr, (processar_dados df).2 = Except.ok dfr →
      dfr = (processar_dados df).1 ∧ dfr.delta_z2.isSome = true) ∧
    ((∃ h ∈ hs, 1 ≤ h) →
      (processar_dados df).1.altura = some (hs.map (fun h => h / 100)) ∧
      (processar_dados df).1 ≠ df) := by
  obtain ⟨a, tl, rfl⟩ := List.exists_cons_of_ne_nil hne
  obtain ⟨hsn, z0, hhsn, hz0, hpost, hok⟩ := processar_dados_success df ts a tl htc hhc
  constructor
  · intro dfr hdfr
    rw [hok] at hdfr
    injection hdfr with hdfr
    subst hdfr
    exact ⟨hpost.symm, rfl⟩
  · rintro ⟨h0, hmem, h1⟩
    have hmx : maxLtOne (a :: tl) = false := maxLtOne_false_of_ge a tl h0 hmem h1
    have hsn_eq : hsn = (a :: tl).map (fun h => h / 100) := by
      rw [hhsn, hmx]
      simp
    constructor
    · rw [hpost, hsn_eq]
    · rw [hpost]
      intro hEq
      have h2 : some hsn = some (a :: tl) := by
        rw [← hhc]
        exact congrArg DataFrame.altura hEq
      have h3 : hsn = a :: tl := Option.some_injective _ h2
      rw [hsn_eq] at h3
      exact map_div100_ne (a :: tl) h0 hmem h1 h3

/-- Witness for C10: table with `tempo = [0, 60]`, `altura = [5, 6]`
(heights at least 1, so the division branch fires and the caller's
table is visibly modified). -/
theorem C10_in_place_mutation_witness :
    ((⟨some [0, 60], some [5, 6], none⟩ : DataFrame).altura = some [5, 6]) ∧
    (([5, 6] : List ℚ) ≠ []) ∧
    ((∀ dfr, (processar_dados ⟨some [0, 60], some [5, 6], none⟩).2 = Except.ok dfr →
      dfr = (processar_dados ⟨some [0, 60], some [5, 6], none⟩).1 ∧
      dfr.delta_z2.isSome = true) ∧
    ((∃ h ∈ ([5, 6] : List ℚ), 1 ≤ h) →
      (processar_dados ⟨some [0, 60], some [5, 6], none⟩).1.altura =
        some (([5, 6] : List ℚ).map (fun h => h / 100)) ∧
      (processar_dados ⟨some [0, 60], some [5, 6], none⟩).1 ≠
        ⟨some [0, 60], some [5, 6], none⟩)) :=
  ⟨rfl, by simp, C10_in_place_mutation _ [0, 60] [5, 6] rfl rfl (by simp)⟩

end ColunaAbsorcao
